import Mathlib

/-!
Shallow embedding of the Classroom/Drive synchronization and submission
workflow of the myAgent backend (backend/app/routes/classroom.py,
backend/app/routes/assignments.py, backend/app/services/google_drive.py,
backend/app/services/google_classroom.py), together with theorems about
its reconciliation and submission behaviour.

External effects (the Google REST clients, the PDF renderer, the local
filesystem) are modelled as explicit inputs: each remote call's outcome is
a field of an environment record, the database is a list of rows, and the
filesystem is a list of existing paths.
-/

namespace MyAgent

/-! ## Generic helpers -/

/-- Python truthiness of an optional string: `None` and `""` are falsy. -/
def optTruthy : Option String → Bool
  | none => false
  | some s => !(s == "")

/-- Replace the first element satisfying `p` by its image under `f`
(the effect of mutating the row returned by `query(...).first()` and
committing). -/
def updateFirst (p : α → Bool) (f : α → α) : List α → List α
  | [] => []
  | x :: xs => if p x then f x :: xs else x :: updateFirst p f xs

/-- Substring test on character lists, used to model the Python
`pat in s` operator on strings. -/
def infixCheck (pat : List Char) : List Char → Bool
  | [] => pat.isEmpty
  | c :: rest => pat.isPrefixOf (c :: rest) || infixCheck pat rest

/-- Python `pat in s` for strings. -/
def strContains (s pat : String) : Bool := infixCheck pat.data s.data

/-! ## Python datetime validity

`datetime(year, month, day, hour, minute)` raises `ValueError` exactly when
a component is out of range; `validDateTime` captures the in-range check. -/

structure PyDateTime where
  year : Int
  month : Int
  day : Int
  hour : Int
  minute : Int
deriving Repr, DecidableEq

def isLeapYear (y : Int) : Bool :=
  (y % 4 == 0 && y % 100 != 0) || (y % 400 == 0)

def daysInMonth (y m : Int) : Int :=
  if m == 2 then (if isLeapYear y then 29 else 28)
  else if m == 4 || m == 6 || m == 9 || m == 11 then 30
  else 31

def validDateTime (y mo d h mi : Int) : Bool :=
  1 ≤ y && y ≤ 9999 && 1 ≤ mo && mo ≤ 12 && 1 ≤ d && d ≤ daysInMonth y mo
    && 0 ≤ h && h ≤ 23 && 0 ≤ mi && mi ≤ 59

/-! ## Remote records (Google Classroom API shapes)

Optional fields model the presence or absence of the corresponding JSON
key; `get(key, default)` becomes `Option.getD`. -/

structure GoogleCourse where
  id : String
  name : Option String
  sectionField : Option String
  description : Option String
  room : Option String
deriving Repr, DecidableEq

structure DueDateInfo where
  year : Option Int
  month : Option Int
  day : Option Int
deriving Repr, DecidableEq

structure DueTimeInfo where
  hours : Option Int
  minutes : Option Int
deriving Repr, DecidableEq

/-- Payload under a material's `driveFile` key: a wrapper whose own
`driveFile` sub-key holds the shared drive file descriptor. -/
structure DriveFileInner where
  title : Option String
  alternateLink : Option String
  id : Option String
deriving Repr, DecidableEq

structure DriveFileOuter where
  driveFile : Option DriveFileInner
deriving Repr, DecidableEq

structure YouTubeVideo where
  title : Option String
  alternateLink : Option String
  id : Option String
deriving Repr, DecidableEq

structure LinkMaterial where
  title : Option String
  url : Option String
deriving Repr, DecidableEq

structure FormMaterial where
  title : Option String
  formUrl : Option String
  id : Option String
deriving Repr, DecidableEq

/-- One heterogeneous material payload; each field models one of the four
variant keys inspected by `process_materials`. -/
structure GoogleMaterial where
  driveFile : Option DriveFileOuter
  youtubeVideo : Option YouTubeVideo
  link : Option LinkMaterial
  form : Option FormMaterial
deriving Repr, DecidableEq

structure GoogleAssignment where
  id : String
  title : Option String
  description : Option String
  dueDate : Option DueDateInfo
  dueTime : Option DueTimeInfo
  materials : Option (List GoogleMaterial)
deriving Repr, DecidableEq

/-- Due-date reconstruction from `get_assignments` (classroom.py lines
156-170): attempted only when both the `dueDate` and `dueTime` keys are
present, with missing sub-components defaulted, and `ValueError` from the
`datetime` constructor degraded to `None`. -/
def parseDueDate (ga : GoogleAssignment) : Option PyDateTime :=
  match ga.dueDate, ga.dueTime with
  | some d, some t =>
    let y := d.year.getD 1970
    let mo := d.month.getD 1
    let da := d.day.getD 1
    let h := t.hours.getD 0
    let mi := t.minutes.getD 0
    if validDateTime y mo da h mi then some ⟨y, mo, da, h, mi⟩ else none
  | _, _ => none

/-! ## Local rows (models/models.py) -/

structure CourseRow where
  id : Nat
  google_course_id : String
  name : String
  sectionField : Option String
  description : Option String
  room : Option String
  user_id : Nat
deriving Repr, DecidableEq

structure AssignmentRow where
  id : Nat
  google_assignment_id : String
  title : String
  description : String
  due_date : Option PyDateTime
  course_id : Nat
  user_id : Nat
deriving Repr, DecidableEq

structure MaterialRow where
  id : Nat
  google_material_id : Option String
  title : String
  type : String
  url : Option String
  content : Option String
  assignment_id : Nat
deriving Repr, DecidableEq

/-! ## Course reconciliation (get_courses, classroom.py lines 44-73) -/

structure CourseDB where
  rows : List CourseRow
  nextId : Nat
deriving Repr, DecidableEq

/-- Lookup filter of course sync: `google_course_id == remote id` and
`user_id == current user`. -/
def courseKey (gid : String) (uid : Nat) (r : CourseRow) : Bool :=
  r.google_course_id == gid && r.user_id == uid

def createCourseRow (uid : Nat) (g : GoogleCourse) (rid : Nat) : CourseRow :=
  { id := rid
    google_course_id := g.id
    name := g.name.getD "Unnamed Course"
    sectionField := g.sectionField
    description := g.description
    room := g.room
    user_id := uid }

def updateCourseRow (g : GoogleCourse) (r : CourseRow) : CourseRow :=
  { r with
    name := g.name.getD r.name
    sectionField := match g.sectionField with | some s => some s | none => r.sectionField
    description := match g.description with | some s => some s | none => r.description
    room := match g.room with | some s => some s | none => r.room }

def syncCourseStep (uid : Nat) (db : CourseDB) (g : GoogleCourse) : CourseDB :=
  match db.rows.find? (courseKey g.id uid) with
  | none =>
    { rows := db.rows ++ [createCourseRow uid g db.nextId], nextId := db.nextId + 1 }
  | some _ =>
    { rows := updateFirst (courseKey g.id uid) (updateCourseRow g) db.rows
      nextId := db.nextId }

/-- The create-or-update loop of the `/courses` route over the fetched
remote course list. -/
def get_courses (uid : Nat) (gs : List GoogleCourse) (db : CourseDB) : CourseDB :=
  gs.foldl (syncCourseStep uid) db

/-! ## Material normalization and reconciliation
(process_materials, classroom.py lines 264-354) -/

/-- Outcome of the Drive content download attempted for a file-backed
material: `failed` models `download_file` returning `None`, `decodeError`
models `read().decode` raising, `ok` the decoded text. -/
inductive DownloadOutcome where
  | failed
  | decodeError
  | ok (text : String)
deriving Repr, DecidableEq

/-- Normalized shape computed by the classification block of
`process_materials` before the database access: the local variables
`material_type`, `title`, `url`, `content`, `google_material_id`. -/
structure NormMaterial where
  type : String
  title : String
  url : Option String
  content : Option String
  google_material_id : Option String
deriving Repr, DecidableEq

/-- Classification of one material payload, inspecting the four variant
keys in the fixed order driveFile, youtubeVideo, link, form, with the
Drive content download (attempted when the drive file id is truthy)
supplied by `oracle`. -/
def normalizeMaterial (oracle : String → DownloadOutcome) (m : GoogleMaterial) :
    NormMaterial :=
  match m.driveFile with
  | some outer =>
    let df := outer.driveFile.getD ⟨none, none, none⟩
    let content : Option String :=
      match df.id with
      | some g =>
        if g == "" then none
        else
          match oracle g with
          | .failed => some "[Content download failed]"
          | .decodeError => some "[Error decoding content]"
          | .ok t => some t
      | none => none
    { type := "drive_file"
      title := df.title.getD "Drive File"
      url := df.alternateLink
      content := content
      google_material_id := df.id }
  | none =>
  match m.youtubeVideo with
  | some v =>
    { type := "youtube", title := v.title.getD "YouTube Video"
      url := v.alternateLink, content := none, google_material_id := v.id }
  | none =>
  match m.link with
  | some l =>
    { type := "link", title := l.title.getD "Link"
      url := l.url, content := none, google_material_id := none }
  | none =>
  match m.form with
  | some f =>
    { type := "form", title := f.title.getD "Form"
      url := f.formUrl, content := none, google_material_id := f.id }
  | none =>
    { type := "unknown", title := "Untitled Material"
      url := none, content := none, google_material_id := none }

structure MaterialDB where
  rows : List MaterialRow
  nextId : Nat
deriving Repr, DecidableEq

/-- Row filter of the material dedup query for truthy id and url:
`google_material_id == id AND assignment_id == aid AND url == url`. -/
def matKey (n : NormMaterial) (aid : Nat) (r : MaterialRow) : Bool :=
  r.google_material_id == n.google_material_id && r.assignment_id == aid
    && r.url == n.url

/-- Dedup lookup of `process_materials` (classroom.py lines 326-331). The
source builds each of the id and url criteria as
`Model.col == value if value else None`; SQLAlchemy coerces the Python
`None` criterion to the SQL `NULL` literal, and a `NULL` conjunct makes
the `WHERE` clause never true, so the lookup can only match when both the
id and the url are truthy. -/
def materialLookup (rows : List MaterialRow) (aid : Nat) (n : NormMaterial) :
    Option MaterialRow :=
  if optTruthy n.google_material_id && optTruthy n.url then
    rows.find? (matKey n aid)
  else
    none

def createMaterialRow (n : NormMaterial) (aid rid : Nat) : MaterialRow :=
  { id := rid
    google_material_id := n.google_material_id
    title := n.title
    type := n.type
    url := n.url
    content := n.content
    assignment_id := aid }

/-- Update path of material sync (classroom.py lines 346-354): title, url
and type are overwritten; content only when the new content is truthy. -/
def updateMaterialRow (n : NormMaterial) (r : MaterialRow) : MaterialRow :=
  { r with
    title := n.title
    url := n.url
    type := n.type
    content := if optTruthy n.content then n.content else r.content }

def processMaterialStep (oracle : String → DownloadOutcome) (aid : Nat)
    (db : MaterialDB) (m : GoogleMaterial) : MaterialDB :=
  let n := normalizeMaterial oracle m
  match materialLookup db.rows aid n with
  | none =>
    { rows := db.rows ++ [createMaterialRow n aid db.nextId], nextId := db.nextId + 1 }
  | some _ =>
    { rows := updateFirst (matKey n aid) (updateMaterialRow n) db.rows
      nextId := db.nextId }

/-- The loop of `process_materials` over one assignment's material list. -/
def process_materials (oracle : String → DownloadOutcome) (aid : Nat)
    (ms : List GoogleMaterial) (db : MaterialDB) : MaterialDB :=
  ms.foldl (processMaterialStep oracle aid) db

/-! ## Assignment reconciliation (get_assignments, classroom.py lines
144-207), which nests material reconciliation per assignment. -/

structure ClassDB where
  assignments : List AssignmentRow
  materials : List MaterialRow
  nextAssignmentId : Nat
  nextMaterialId : Nat
deriving Repr, DecidableEq

/-- Lookup filter of assignment sync: `google_assignment_id == remote id`
and `course_id == local course id`. -/
def assignKey (gid : String) (cid : Nat) (r : AssignmentRow) : Bool :=
  r.google_assignment_id == gid && r.course_id == cid

def createAssignmentRow (uid cid : Nat) (ga : GoogleAssignment) (rid : Nat) :
    AssignmentRow :=
  { id := rid
    google_assignment_id := ga.id
    title := ga.title.getD "Untitled Assignment"
    description := ga.description.getD ""
    due_date := parseDueDate ga
    course_id := cid
    user_id := uid }

/-- Update path of assignment sync (classroom.py lines 185-192): title and
description refreshed, due_date overwritten only when the parsed value is
truthy (a `datetime` is always truthy, `None` is not). -/
def updateAssignmentRow (ga : GoogleAssignment) (r : AssignmentRow) : AssignmentRow :=
  { r with
    title := ga.title.getD r.title
    description := ga.description.getD r.description
    due_date := match parseDueDate ga with
                | some d => some d
                | none => r.due_date }

def syncAssignmentStep (uid cid : Nat) (oracle : String → DownloadOutcome)
    (db : ClassDB) (ga : GoogleAssignment) : ClassDB :=
  let found := db.assignments.find? (assignKey ga.id cid)
  let db1 : ClassDB :=
    match found with
    | none =>
      { db with
        assignments := db.assignments ++ [createAssignmentRow uid cid ga db.nextAssignmentId]
        nextAssignmentId := db.nextAssignmentId + 1 }
    | some _ =>
      { db with
        assignments := updateFirst (assignKey ga.id cid) (updateAssignmentRow ga) db.assignments }
  let aid : Nat :=
    match found with
    | none => db.nextAssignmentId
    | some r => r.id
  match ga.materials with
  | some ms =>
    let mdb := process_materials oracle aid ms ⟨db1.materials, db1.nextMaterialId⟩
    { db1 with materials := mdb.rows, nextMaterialId := mdb.nextId }
  | none => db1

/-- The create-or-update loop of the `/courses/{id}/assignments` route over
the fetched coursework list. -/
def get_assignments (uid cid : Nat) (oracle : String → DownloadOutcome)
    (gas : List GoogleAssignment) (db : ClassDB) : ClassDB :=
  gas.foldl (syncAssignmentStep uid cid oracle) db

/-! ## Drive file download (google_drive.py, download_file lines 30-70) -/

/-- Result of the metadata lookup: mimeType may be absent from the
returned fields. -/
structure DriveMeta where
  mimeType : Option String
  name : Option String
deriving Repr, DecidableEq

/-- Outcomes of the remote Drive calls made by `download_file`: the
metadata lookup, the export download for a requested mime type, and the
raw media download. An `error` value models an `HttpError` (or any other
exception) raised by the transport. -/
structure DriveEnv where
  metaResult : Except String DriveMeta
  exportResult : String → Except String (List Nat)
  mediaResult : Except String (List Nat)

/-- A downloaded byte stream with its current position (`BytesIO`). -/
structure ByteStream where
  data : List Nat
  pos : Nat
deriving Repr, DecidableEq

/-- Model of `GoogleDriveService.download_file`: resolve the mime type,
export native document types as text/plain and native spreadsheet types as
text/csv, download anything non-native raw, and turn every error (including
a missing mime type, which makes the Python `in` test raise) into `none`.
A successful download is returned after `seek(0)`. -/
def download_file (env : DriveEnv) : Option ByteStream :=
  match env.metaResult with
  | .error _ => none
  | .ok meta =>
    match meta.mimeType with
    | none => none
    | some mt =>
      if strContains mt "google-apps" then
        if strContains mt "document" then
          match env.exportResult "text/plain" with
          | .error _ => none
          | .ok bs => some ⟨bs, 0⟩
        else if strContains mt "spreadsheet" then
          match env.exportResult "text/csv" with
          | .error _ => none
          | .ok bs => some ⟨bs, 0⟩
        else none
      else
        match env.mediaResult with
        | .error _ => none
        | .ok bs => some ⟨bs, 0⟩

/-! ## Draft rows and the background generation task
(assignments.py, generate_draft_content lines 424-451) -/

structure Draft where
  id : Nat
  content : String
  status : String
  submission_date : Option Nat
deriving Repr, DecidableEq

/-- Model of the background task `generate_draft_content`: the generator
outcome is `Except` (error text on failure); the task re-fetches the draft
by id and, if present, stores the generated content and status `draft` on
success, or the error text and status `error` on failure. -/
def generate_draft_content (genResult : Except String String) (draftId : Nat)
    (db : List Draft) : List Draft :=
  match genResult with
  | .ok text =>
    updateFirst (fun d => d.id == draftId)
      (fun d => { d with content := text, status := "draft" }) db
  | .error e =>
    updateFirst (fun d => d.id == draftId)
      (fun d => { d with content := "Error generating content: " ++ e, status := "error" }) db

/-! ## Submission orchestrator
(assignments.py, submit_draft_to_classroom lines 270-420, and
google_classroom.py, create_submission lines 106-142) -/

/-- The remote calls the submission flow can make, in order to express
which calls were and were not performed. -/
inductive RemoteCall where
  | findFolder
  | upload
  | createSub
  | modifyAttach
  | turnIn
deriving Repr, DecidableEq

/-- A student-submission dict as returned by a Classroom call; its `id`
entry may be absent. -/
structure Subm where
  idField : Option String
deriving Repr, DecidableEq

/-- A Drive upload result dict; its `id` entry may be absent. -/
structure UploadedFile where
  idField : Option String
deriving Repr, DecidableEq

/-- Outcomes of the three Classroom calls inside `create_submission`:
create the empty student submission, attach the file, turn in. -/
structure ClassroomEnv where
  createResult : Except String Subm
  modifyResult : Except String Unit
  turnInResult : Except String Subm
deriving Repr

/-- Model of `GoogleClassroomService.create_submission`: the three calls in
sequence; any `HttpError` is caught and the function returns the empty dict
(modelled as `none`). Also returns the list of remote calls performed. -/
def create_submission (env : ClassroomEnv) : Option Subm × List RemoteCall :=
  match env.createResult with
  | .error _ => (none, [.createSub])
  | .ok _ =>
    match env.modifyResult with
    | .error _ => (none, [.createSub, .modifyAttach])
    | .ok _ =>
      match env.turnInResult with
      | .error _ => (none, [.createSub, .modifyAttach, .turnIn])
      | .ok fin => (some fin, [.createSub, .modifyAttach, .turnIn])

/-- Outcomes of the external steps of the submit flow: the PDF render
(raises on failure), the folder find-or-create (`None` degrades to a root
upload), the Drive upload (`None` on failure), the Classroom submission
environment, and the current time used for the submission stamp. -/
structure SubmitEnv where
  renderResult : Except String String
  folderResult : Option String
  uploadResult : Option UploadedFile
  classroom : ClassroomEnv
  now : Nat

inductive SubmitOutcome where
  | alreadySubmitted
  | assignmentMissing
  | courseMissing
  | authRequired
  | renderError (msg : String)
  | uploadFailed
  | submissionFailed
  | success (subId : String) (fileId : String)
deriving Repr, DecidableEq

structure SubmitResult where
  draft : Draft
  disk : List String
  calls : List RemoteCall
  outcome : SubmitOutcome
deriving Repr, DecidableEq

/-- Deletion of a path from the modelled filesystem (`os.remove`). -/
def removeFile (path : String) (disk : List String) : List String :=
  disk.filter (fun q => q != path)

/-- Model of the `/drafts/{id}/submit` route, past the draft lookup: the
status / assignment / course / token precondition checks, then the
sequential render, folder, upload and three-call submission steps inside
`try`, with the draft mutated only on full success and the rendered PDF
removed in `finally` whenever it was created. -/
def submit_draft_to_classroom (draft : Draft) (assignmentRec : Option String)
    (courseRec : Option String) (token : Option String) (env : SubmitEnv)
    (disk : List String) : SubmitResult :=
  if draft.status == "submitted" then ⟨draft, disk, [], .alreadySubmitted⟩
  else
    match assignmentRec with
    | none => ⟨draft, disk, [], .assignmentMissing⟩
    | some _ =>
      match courseRec with
      | none => ⟨draft, disk, [], .courseMissing⟩
      | some _ =>
        if !(optTruthy token) then ⟨draft, disk, [], .authRequired⟩
        else
          match env.renderResult with
          | .error e => ⟨draft, disk, [], .renderError e⟩
          | .ok path =>
            match env.uploadResult with
            | none =>
              ⟨draft, removeFile path (path :: disk), [.findFolder, .upload], .uploadFailed⟩
            | some uf =>
              match uf.idField with
              | none =>
                ⟨draft, removeFile path (path :: disk), [.findFolder, .upload], .uploadFailed⟩
              | some fileId =>
                match create_submission env.classroom with
                | (none, cs) =>
                  ⟨draft, removeFile path (path :: disk), [.findFolder, .upload] ++ cs,
                   .submissionFailed⟩
                | (some fin, cs) =>
                  match fin.idField with
                  | none =>
                    ⟨draft, removeFile path (path :: disk), [.findFolder, .upload] ++ cs,
                     .submissionFailed⟩
                  | some subId =>
                    ⟨{ draft with status := "submitted", submission_date := some env.now },
                     removeFile path (path :: disk), [.findFolder, .upload] ++ cs,
                     .success subId fileId⟩

/-! ## Concrete sample inputs used to exercise the definitions -/

def sampleOracle : String → DownloadOutcome := fun _ => DownloadOutcome.failed

def emptyMaterialDB : MaterialDB := ⟨[], 1⟩

def emptyClassDB : ClassDB := ⟨[], [], 1, 1⟩

def sampleDriveMaterial : GoogleMaterial :=
  ⟨some ⟨some ⟨some "Notes", some "http://drive/notes", some "F1"⟩⟩, none, none, none⟩

def sampleLinkMaterial : GoogleMaterial :=
  ⟨none, none, some ⟨some "Reading", some "http://example.org/read"⟩, none⟩

def sampleUnknownMaterial : GoogleMaterial := ⟨none, none, none, none⟩

def sampleBadDueAssignment : GoogleAssignment :=
  ⟨"A1", some "Homework", none, some ⟨some 2024, some 2, some 30⟩, some ⟨none, none⟩, none⟩

def sampleDefaultDueAssignment : GoogleAssignment :=
  ⟨"A2", some "Homework 2", none, some ⟨none, none, none⟩, some ⟨none, none⟩, none⟩

def sampleNoDueAssignment : GoogleAssignment :=
  ⟨"A1", some "New title", some "New description", none, none, none⟩

def sampleAssignmentRow : AssignmentRow :=
  ⟨3, "A1", "Old title", "Old description", some ⟨2024, 1, 15, 12, 0⟩, 2, 5⟩

def sampleGeneratingDraft : Draft := ⟨7, "Generating content...", "generating", none⟩

def sampleDraft : Draft := ⟨7, "My essay text", "draft", none⟩

def successClassroomEnv : ClassroomEnv :=
  ⟨Except.ok ⟨some "S0"⟩, Except.ok (), Except.ok ⟨some "S9"⟩⟩

def successSubmitEnv : SubmitEnv :=
  ⟨Except.ok "tmp_submission.pdf", some "folder1", some ⟨some "F7"⟩, successClassroomEnv, 99⟩

def uploadFailSubmitEnv : SubmitEnv :=
  ⟨Except.ok "tmp_submission.pdf", none, none, successClassroomEnv, 99⟩

def sampleDriveEnvDoc : DriveEnv :=
  ⟨Except.ok ⟨some "application/vnd.google-apps.document", some "Doc"⟩,
   fun _ => Except.ok [104, 105], Except.ok [1, 2]⟩

/-! ## Lemmas about the upsert pattern -/

theorem updateFirst_length (p : α → Bool) (f : α → α) (l : List α) :
    (updateFirst p f l).length = l.length := by
  induction l with
  | nil => rfl
  | cons x xs ih =>
    simp only [updateFirst]
    cases h : p x <;> simp [ih]

theorem any_updateFirst (p q : α → Bool) (f : α → α) (l : List α)
    (h : ∀ r, p r = true → q (f r) = q r) :
    (updateFirst p f l).any q = l.any q := by
  induction l with
  | nil => rfl
  | cons x xs ih =>
    simp only [updateFirst]
    cases hp : p x
    · simp [List.any_cons, ih]
    · simp [List.any_cons, h x hp]

theorem find?_isSome_iff_any (p : α → Bool) (l : List α) :
    (l.find? p).isSome = l.any p := by
  induction l with
  | nil => rfl
  | cons x xs ih =>
    cases hp : p x
    · have hnp : ¬ p x = true := by simp [hp]
      simp [List.find?_cons_of_neg _ hnp, List.any_cons, hp, ih]
    · simp [List.find?_cons_of_pos _ hp, List.any_cons, hp]

theorem any_of_find?_eq_some {p : α → Bool} {l : List α} {a : α}
    (h : l.find? p = some a) : l.any p = true := by
  rw [← find?_isSome_iff_any, h]
  rfl

theorem find?_updateFirst_self (p : α → Bool) (f : α → α) (l : List α)
    (hf : ∀ x, p x = true → p (f x) = true) :
    ∀ a, l.find? p = some a → (updateFirst p f l).find? p = some (f a) := by
  induction l with
  | nil => intro a h; cases h
  | cons x xs ih =>
    intro a h
    cases hp : p x
    · have hnp : ¬ p x = true := by simp [hp]
      rw [List.find?_cons_of_neg _ hnp] at h
      simp only [updateFirst, hp]
      simp only [Bool.false_eq_true, if_false]
      rw [List.find?_cons_of_neg _ hnp]
      exact ih a h
    · rw [List.find?_cons_of_pos _ hp] at h
      have hx : x = a := by injection h
      subst hx
      simp only [updateFirst, hp, if_true]
      rw [List.find?_cons_of_pos _ (hf x hp)]

/-- Invariant preservation along a fold. -/
theorem foldl_preserves {σ α : Type _} (step : σ → α → σ) (P : σ → Prop)
    (hstep : ∀ s a, P s → P (step s a)) :
    ∀ (l : List α) (s : σ), P s → P (l.foldl step s) := by
  intro l
  induction l with
  | nil => intro s h; exact h
  | cons x xs ih =>
    intro s h
    rw [List.foldl_cons]
    exact ih _ (hstep s x h)

/-- After one fold pass, every processed input has its key established,
provided the step establishes its own key (under a side condition `G`) and
preserves established keys. -/
theorem foldl_establishes {σ α : Type _} (step : σ → α → σ) (K : σ → α → Prop)
    (G : α → Prop)
    (hcreate : ∀ s a, G a → K (step s a) a)
    (hpres : ∀ s a b, K s b → K (step s a) b) :
    ∀ (l : List α) (s : σ), (∀ a ∈ l, G a) → ∀ a ∈ l, K (l.foldl step s) a := by
  intro l
  induction l with
  | nil =>
    intro s _ a ha
    cases ha
  | cons x xs ih =>
    intro s hG a ha
    rw [List.foldl_cons]
    rcases List.mem_cons.mp ha with rfl | hmem
    · exact foldl_preserves step (fun s => K s a) (fun s b h => hpres s b a h) xs
        (step s a) (hcreate s a (hG a (List.mem_cons_self a xs)))
    · exact ih (step s x) (fun b hb => hG b (List.mem_cons_of_mem x hb)) a hmem

/-- A fold over inputs whose keys are all already established does not
change the measured size, provided a keyed step is size-preserving. -/
theorem foldl_len_stable {σ α : Type _} (step : σ → α → σ) (K : σ → α → Prop)
    (G : α → Prop) (len : σ → Nat)
    (hlen : ∀ s a, G a → K s a → len (step s a) = len s)
    (hpres : ∀ s a b, K s b → K (step s a) b) :
    ∀ (l : List α) (s : σ), (∀ a ∈ l, G a) → (∀ a ∈ l, K s a) →
      len (l.foldl step s) = len s := by
  intro l
  induction l with
  | nil => intro s _ _; rfl
  | cons x xs ih =>
    intro s hG hK
    rw [List.foldl_cons]
    rw [ih (step s x) (fun a ha => hG a (List.mem_cons_of_mem x ha))
        (fun a ha => hpres s x a (hK a (List.mem_cons_of_mem x ha)))]
    exact hlen s x (hG x (List.mem_cons_self x xs)) (hK x (List.mem_cons_self x xs))

/-! ## Course sync: key lemmas and idempotence -/

theorem courseKey_updateCourseRow (g : GoogleCourse) (gid : String) (uid : Nat)
    (r : CourseRow) : courseKey gid uid (updateCourseRow g r) = courseKey gid uid r := rfl

theorem syncCourseStep_pres (uid : Nat) (db : CourseDB) (g b : GoogleCourse)
    (h : db.rows.any (courseKey b.id uid) = true) :
    (syncCourseStep uid db g).rows.any (courseKey b.id uid) = true := by
  unfold syncCourseStep
  cases hf : db.rows.find? (courseKey g.id uid) with
  | none => simp [List.any_append, h]
  | some r =>
    simpa [any_updateFirst _ _ _ _ (fun r _ => courseKey_updateCourseRow g b.id uid r)] using h

theorem syncCourseStep_create (uid : Nat) (db : CourseDB) (g : GoogleCourse) :
    (syncCourseStep uid db g).rows.any (courseKey g.id uid) = true := by
  unfold syncCourseStep
  cases hf : db.rows.find? (courseKey g.id uid) with
  | none => simp [List.any_append, createCourseRow, courseKey]
  | some r =>
    have h := any_of_find?_eq_some hf
    simpa [any_updateFirst _ _ _ _ (fun r _ => courseKey_updateCourseRow g g.id uid r)] using h

theorem syncCourseStep_len (uid : Nat) (db : CourseDB) (g : GoogleCourse)
    (h : db.rows.any (courseKey g.id uid) = true) :
    (syncCourseStep uid db g).rows.length = db.rows.length := by
  unfold syncCourseStep
  cases hf : db.rows.find? (courseKey g.id uid) with
  | none =>
    rw [← find?_isSome_iff_any, hf] at h
    cases h
  | some r => simp [updateFirst_length]

theorem get_courses_idempotent (uid : Nat) (gs : List GoogleCourse) (db : CourseDB) :
    (get_courses uid gs (get_courses uid gs db)).rows.length
      = (get_courses uid gs db).rows.length := by
  unfold get_courses
  refine foldl_len_stable (syncCourseStep uid)
    (fun s g => s.rows.any (courseKey g.id uid) = true) (fun _ => True)
    (fun s => s.rows.length)
    (fun s a _ h => syncCourseStep_len uid s a h)
    (fun s a b h => syncCourseStep_pres uid s a b h)
    gs _ (fun _ _ => trivial) ?_
  exact foldl_establishes (syncCourseStep uid)
    (fun s g => s.rows.any (courseKey g.id uid) = true) (fun _ => True)
    (fun s a _ => syncCourseStep_create uid s a)
    (fun s a b h => syncCourseStep_pres uid s a b h)
    gs db (fun _ _ => trivial)

/-! ## Assignment sync: key lemmas and idempotence -/

theorem syncAssignmentStep_assignments (uid cid : Nat)
    (oracle : String → DownloadOutcome) (db : ClassDB) (ga : GoogleAssignment) :
    (syncAssignmentStep uid cid oracle db ga).assignments =
      match db.assignments.find? (assignKey ga.id cid) with
      | none => db.assignments ++ [createAssignmentRow uid cid ga db.nextAssignmentId]
      | some _ => updateFirst (assignKey ga.id cid) (updateAssignmentRow ga) db.assignments := by
  cases hf : db.assignments.find? (assignKey ga.id cid) <;>
    cases hm : ga.materials <;>
      simp [syncAssignmentStep, hf, hm]

theorem assignKey_updateAssignmentRow (ga : GoogleAssignment) (gid : String)
    (cid : Nat) (r : AssignmentRow) :
    assignKey gid cid (updateAssignmentRow ga r) = assignKey gid cid r := rfl

theorem syncAssignmentStep_pres (uid cid : Nat) (oracle : String → DownloadOutcome)
    (db : ClassDB) (ga b : GoogleAssignment)
    (h : db.assignments.any (assignKey b.id cid) = true) :
    (syncAssignmentStep uid cid oracle db ga).assignments.any (assignKey b.id cid) = true := by
  rw [syncAssignmentStep_assignments]
  cases hf : db.assignments.find? (assignKey ga.id cid) with
  | none => simp [List.any_append, h]
  | some r =>
    simpa [any_updateFirst _ _ _ _
      (fun r _ => assignKey_updateAssignmentRow ga b.id cid r)] using h

theorem syncAssignmentStep_create (uid cid : Nat) (oracle : String → DownloadOutcome)
    (db : ClassDB) (ga : GoogleAssignment) :
    (syncAssignmentStep uid cid oracle db ga).assignments.any (assignKey ga.id cid) = true := by
  rw [syncAssignmentStep_assignments]
  cases hf : db.assignments.find? (assignKey ga.id cid) with
  | none => simp [List.any_append, createAssignmentRow, assignKey]
  | some r =>
    have h := any_of_find?_eq_some hf
    simpa [any_updateFirst _ _ _ _
      (fun r _ => assignKey_updateAssignmentRow ga ga.id cid r)] using h

theorem syncAssignmentStep_len (uid cid : Nat) (oracle : String → DownloadOutcome)
    (db : ClassDB) (ga : GoogleAssignment)
    (h : db.assignments.any (assignKey ga.id cid) = true) :
    (syncAssignmentStep uid cid oracle db ga).assignments.length = db.assignments.length := by
  rw [syncAssignmentStep_assignments]
  cases hf : db.assignments.find? (assignKey ga.id cid) with
  | none =>
    rw [← find?_isSome_iff_any, hf] at h
    cases h
  | some r => simp [updateFirst_length]

theorem get_assignments_idempotent (uid cid : Nat) (oracle : String → DownloadOutcome)
    (gas : List GoogleAssignment) (db : ClassDB) :
    (get_assignments uid cid oracle gas (get_assignments uid cid oracle gas db)).assignments.length
      = (get_assignments uid cid oracle gas db).assignments.length := by
  unfold get_assignments
  refine foldl_len_stable (syncAssignmentStep uid cid oracle)
    (fun s ga => s.assignments.any (assignKey ga.id cid) = true) (fun _ => True)
    (fun s => s.assignments.length)
    (fun s a _ h => syncAssignmentStep_len uid cid oracle s a h)
    (fun s a b h => syncAssignmentStep_pres uid cid oracle s a b h)
    gas _ (fun _ _ => trivial) ?_
  exact foldl_establishes (syncAssignmentStep uid cid oracle)
    (fun s ga => s.assignments.any (assignKey ga.id cid) = true) (fun _ => True)
    (fun s a _ => syncAssignmentStep_create uid cid oracle s a)
    (fun s a b h => syncAssignmentStep_pres uid cid oracle s a b h)
    gas db (fun _ _ => trivial)

/-! ## Material sync: key lemmas and conditional idempotence -/

theorem url_eq_of_matKey {n : NormMaterial} {aid : Nat} {r : MaterialRow}
    (hp : matKey n aid r = true) : r.url = n.url := by
  simp [matKey] at hp
  tauto

theorem matKey_updateMaterialRow (n q : NormMaterial) (aid bid : Nat) (r : MaterialRow)
    (hp : matKey n aid r = true) :
    matKey q bid (updateMaterialRow n r) = matKey q bid r := by
  have hurl := url_eq_of_matKey hp
  simp [matKey, updateMaterialRow, ← hurl]

theorem processMaterialStep_rows (oracle : String → DownloadOutcome) (aid : Nat)
    (db : MaterialDB) (m : GoogleMaterial) :
    (processMaterialStep oracle aid db m).rows =
      match materialLookup db.rows aid (normalizeMaterial oracle m) with
      | none => db.rows ++ [createMaterialRow (normalizeMaterial oracle m) aid db.nextId]
      | some _ => updateFirst (matKey (normalizeMaterial oracle m) aid)
          (updateMaterialRow (normalizeMaterial oracle m)) db.rows := by
  cases hl : materialLookup db.rows aid (normalizeMaterial oracle m) <;>
    simp [processMaterialStep, hl]

theorem materialLookup_find {rows : List MaterialRow} {aid : Nat} {n : NormMaterial}
    {r : MaterialRow} (hl : materialLookup rows aid n = some r) :
    rows.find? (matKey n aid) = some r := by
  unfold materialLookup at hl
  by_cases hc : (optTruthy n.google_material_id && optTruthy n.url) = true
  · rwa [if_pos hc] at hl
  · rw [if_neg hc] at hl
    cases hl

theorem processMaterialStep_pres (oracle : String → DownloadOutcome) (aid : Nat)
    (db : MaterialDB) (m : GoogleMaterial) (q : NormMaterial) (bid : Nat)
    (h : db.rows.any (matKey q bid) = true) :
    (processMaterialStep oracle aid db m).rows.any (matKey q bid) = true := by
  rw [processMaterialStep_rows]
  cases hl : materialLookup db.rows aid (normalizeMaterial oracle m) with
  | none => simp [List.any_append, h]
  | some r =>
    simpa [any_updateFirst _ _ _ _
      (fun r hp => matKey_updateMaterialRow (normalizeMaterial oracle m) q aid bid r hp)] using h

theorem processMaterialStep_create (oracle : String → DownloadOutcome) (aid : Nat)
    (db : MaterialDB) (m : GoogleMaterial) :
    (processMaterialStep oracle aid db m).rows.any
      (matKey (normalizeMaterial oracle m) aid) = true := by
  rw [processMaterialStep_rows]
  cases hl : materialLookup db.rows aid (normalizeMaterial oracle m) with
  | none => simp [List.any_append, createMaterialRow, matKey]
  | some r =>
    have h := any_of_find?_eq_some (materialLookup_find hl)
    simpa [any_updateFirst _ _ _ _
      (fun r hp => matKey_updateMaterialRow (normalizeMaterial oracle m)
        (normalizeMaterial oracle m) aid aid r hp)] using h

theorem processMaterialStep_len (oracle : String → DownloadOutcome) (aid : Nat)
    (db : MaterialDB) (m : GoogleMaterial)
    (hG : optTruthy (normalizeMaterial oracle m).google_material_id = true
          ∧ optTruthy (normalizeMaterial oracle m).url = true)
    (hK : db.rows.any (matKey (normalizeMaterial oracle m) aid) = true) :
    (processMaterialStep oracle aid db m).rows.length = db.rows.length := by
  have hl : materialLookup db.rows aid (normalizeMaterial oracle m)
      = db.rows.find? (matKey (normalizeMaterial oracle m) aid) := by
    unfold materialLookup
    rw [if_pos (by rw [hG.1, hG.2]; rfl)]
  rw [processMaterialStep_rows, hl]
  cases hf : db.rows.find? (matKey (normalizeMaterial oracle m) aid) with
  | none =>
    rw [← find?_isSome_iff_any, hf] at hK
    cases hK
  | some r => simp [updateFirst_length]

theorem process_materials_idempotent_keyed (oracle : String → DownloadOutcome)
    (aid : Nat) (ms : List GoogleMaterial) (db : MaterialDB)
    (hG : ∀ m ∈ ms, optTruthy (normalizeMaterial oracle m).google_material_id = true
          ∧ optTruthy (normalizeMaterial oracle m).url = true) :
    (process_materials oracle aid ms (process_materials oracle aid ms db)).rows.length
      = (process_materials oracle aid ms db).rows.length := by
  unfold process_materials
  refine foldl_len_stable (processMaterialStep oracle aid)
    (fun s m => s.rows.any (matKey (normalizeMaterial oracle m) aid) = true)
    (fun m => optTruthy (normalizeMaterial oracle m).google_material_id = true
          ∧ optTruthy (normalizeMaterial oracle m).url = true)
    (fun s => s.rows.length)
    (fun s a hGa hK => processMaterialStep_len oracle aid s a hGa hK)
    (fun s a b h => processMaterialStep_pres oracle aid s a (normalizeMaterial oracle b) aid h)
    ms _ hG ?_
  exact foldl_establishes (processMaterialStep oracle aid)
    (fun s m => s.rows.any (matKey (normalizeMaterial oracle m) aid) = true)
    (fun m => optTruthy (normalizeMaterial oracle m).google_material_id = true
          ∧ optTruthy (normalizeMaterial oracle m).url = true)
    (fun s a _ => processMaterialStep_create oracle aid s a)
    (fun s a b h => processMaterialStep_pres oracle aid s a (normalizeMaterial oracle b) aid h)
    ms db hG

/-! ## Claim theorems -/

/-- C3 (counterexample): reconciliation run twice with identical remote
input is not idempotent for materials. A link material normalizes with a
null remote id, so the dedup query carries a Python `None` criterion (a SQL
`NULL` conjunct) and never matches: syncing the same single link material
twice against an empty table yields two rows that share the natural key
(no remote id, same url, same assignment), where the claim demands one. -/
theorem claim3_counterexample :
    (process_materials sampleOracle 4 [sampleLinkMaterial] emptyMaterialDB).rows.length = 1 ∧
    (process_materials sampleOracle 4 [sampleLinkMaterial]
        (process_materials sampleOracle 4 [sampleLinkMaterial] emptyMaterialDB)).rows.length = 2 ∧
    ∀ r ∈ (process_materials sampleOracle 4 [sampleLinkMaterial]
        (process_materials sampleOracle 4 [sampleLinkMaterial] emptyMaterialDB)).rows,
      r.google_material_id = none ∧ r.url = some "http://example.org/read"
        ∧ r.assignment_id = 4 := by
  decide

/-- C3 (amended): running reconciliation twice with identical remote input
creates no additional rows on the second run for courses (key
(remote course id, user)) and assignments (key (remote assignment id,
course)); for materials this holds provided every material in the batch
normalizes with BOTH a non-empty remote id and a non-empty url — a
material lacking either is re-inserted on every run. -/
theorem claim3_sync_idempotent_amended :
    (∀ (uid : Nat) (gs : List GoogleCourse) (db : CourseDB),
      (get_courses uid gs (get_courses uid gs db)).rows.length
        = (get_courses uid gs db).rows.length) ∧
    (∀ (uid cid : Nat) (oracle : String → DownloadOutcome)
        (gas : List GoogleAssignment) (db : ClassDB),
      (get_assignments uid cid oracle gas
          (get_assignments uid cid oracle gas db)).assignments.length
        = (get_assignments uid cid oracle gas db).assignments.length) ∧
    (∀ (oracle : String → DownloadOutcome) (aid : Nat) (ms : List GoogleMaterial)
        (db : MaterialDB),
      (∀ m ∈ ms, optTruthy (normalizeMaterial oracle m).google_material_id = true
          ∧ optTruthy (normalizeMaterial oracle m).url = true) →
      (process_materials oracle aid ms (process_materials oracle aid ms db)).rows.length
        = (process_materials oracle aid ms db).rows.length) :=
  ⟨get_courses_idempotent, get_assignments_idempotent, process_materials_idempotent_keyed⟩

/-- Witness for the amended C3 at concrete inputs: one drive-file material
carrying both a remote id and a url is not duplicated by a second sync. -/
theorem claim3_sync_idempotent_amended_witness :
    (process_materials sampleOracle 4 [sampleDriveMaterial]
        (process_materials sampleOracle 4 [sampleDriveMaterial] emptyMaterialDB)).rows.length
      = (process_materials sampleOracle 4 [sampleDriveMaterial] emptyMaterialDB).rows.length :=
  claim3_sync_idempotent_amended.2.2 sampleOracle 4 [sampleDriveMaterial] emptyMaterialDB
    (by decide)

/-- C4: a remote coursework record whose due components describe an
impossible calendar date parses to a null due date, the sync continues
with the remaining records (the fold simply proceeds to the tail), and
the created assignment row stores a null due date. -/
theorem claim4_invalid_due_date_degrades
    (uid cid : Nat) (oracle : String → DownloadOutcome) (db : ClassDB)
    (rest : List GoogleAssignment) (ga : GoogleAssignment)
    (dd : DueDateInfo) (t : DueTimeInfo)
    (hdd : ga.dueDate = some dd) (ht : ga.dueTime = some t)
    (hinvalid : validDateTime (dd.year.getD 1970) (dd.month.getD 1) (dd.day.getD 1)
        (t.hours.getD 0) (t.minutes.getD 0) = false) :
    parseDueDate ga = none ∧
    get_assignments uid cid oracle (ga :: rest) db
      = get_assignments uid cid oracle rest (syncAssignmentStep uid cid oracle db ga) ∧
    (db.assignments.find? (assignKey ga.id cid) = none →
      (syncAssignmentStep uid cid oracle db ga).assignments
        = db.assignments ++ [createAssignmentRow uid cid ga db.nextAssignmentId] ∧
      (createAssignmentRow uid cid ga db.nextAssignmentId).due_date = none) := by
  have hparse : parseDueDate ga = none := by
    unfold parseDueDate
    rw [hdd, ht]
    simp [hinvalid]
  refine ⟨hparse, rfl, fun hf => ⟨?_, ?_⟩⟩
  · rw [syncAssignmentStep_assignments, hf]
  · simp [createAssignmentRow, hparse]

/-- Witness for C4: due date February 30, 2024 yields a null parsed due
date. -/
theorem claim4_witness : parseDueDate sampleBadDueAssignment = none :=
  (claim4_invalid_due_date_degrades 5 3 sampleOracle emptyClassDB []
    sampleBadDueAssignment ⟨some 2024, some 2, some 30⟩ ⟨none, none⟩
    rfl rfl (by decide)).1

/-- C5: a material payload carrying none of the four variant keys
normalizes to type "unknown" with all fields defaulted (title "Untitled
Material", null url, null content, null remote id), and the sync step
inserts exactly that defaulted row. -/
theorem claim5_unknown_material_defaults (oracle : String → DownloadOutcome)
    (aid : Nat) (db : MaterialDB) (m : GoogleMaterial)
    (h1 : m.driveFile = none) (h2 : m.youtubeVideo = none)
    (h3 : m.link = none) (h4 : m.form = none) :
    normalizeMaterial oracle m = ⟨"unknown", "Untitled Material", none, none, none⟩ ∧
    (processMaterialStep oracle aid db m).rows =
      db.rows ++ [⟨db.nextId, none, "Untitled Material", "unknown", none, none, aid⟩] := by
  have hn : normalizeMaterial oracle m
      = ⟨"unknown", "Untitled Material", none, none, none⟩ := by
    unfold normalizeMaterial
    rw [h1, h2, h3, h4]
  have hl : materialLookup db.rows aid (normalizeMaterial oracle m) = none := by
    rw [hn]
    unfold materialLookup
    simp [optTruthy]
  refine ⟨hn, ?_⟩
  rw [processMaterialStep_rows, hl, hn]
  rfl

/-- Witness for C5 at a concrete empty payload and empty table. -/
theorem claim5_witness :
    (processMaterialStep sampleOracle 4 emptyMaterialDB sampleUnknownMaterial).rows
      = [⟨1, none, "Untitled Material", "unknown", none, none, 4⟩] :=
  (claim5_unknown_material_defaults sampleOracle 4 emptyMaterialDB
    sampleUnknownMaterial rfl rfl rfl rfl).2

/-- C6: on the update path of material sync, title, url and type are
overwritten, the remote id is untouched, and content is overwritten only
when the newly fetched content is truthy (non-null and non-empty); an
absent or empty new content leaves the stored content unchanged. The
update path is taken exactly when the dedup lookup matches. -/
theorem claim6_update_content_guard :
    (∀ (n : NormMaterial) (r : MaterialRow),
      (updateMaterialRow n r).title = n.title ∧
      (updateMaterialRow n r).url = n.url ∧
      (updateMaterialRow n r).type = n.type ∧
      (updateMaterialRow n r).google_material_id = r.google_material_id ∧
      (updateMaterialRow n r).content
        = (if optTruthy n.content then n.content else r.content) ∧
      ((n.content = none ∨ n.content = some "") →
        (updateMaterialRow n r).content = r.content)) ∧
    (∀ (oracle : String → DownloadOutcome) (aid : Nat) (db : MaterialDB)
        (m : GoogleMaterial) (r : MaterialRow),
      materialLookup db.rows aid (normalizeMaterial oracle m) = some r →
      (processMaterialStep oracle aid db m).rows
        = updateFirst (matKey (normalizeMaterial oracle m) aid)
            (updateMaterialRow (normalizeMaterial oracle m)) db.rows) := by
  constructor
  · intro n r
    refine ⟨rfl, rfl, rfl, rfl, rfl, ?_⟩
    intro h
    rcases h with h | h <;> simp [updateMaterialRow, optTruthy, h]
  · intro oracle aid db m r hl
    rw [processMaterialStep_rows, hl]

/-- Witness for C6: updating an existing row from a normalization with
empty content keeps the stored content. -/
theorem claim6_witness :
    (updateMaterialRow ⟨"link", "Reading", some "http://example.org/read", none, none⟩
        ⟨1, none, "Old", "link", some "http://example.org/read", some "kept text", 4⟩).content
      = some "kept text" :=
  (claim6_update_content_guard.1
    ⟨"link", "Reading", some "http://example.org/read", none, none⟩
    ⟨1, none, "Old", "link", some "http://example.org/read", some "kept text", 4⟩).2.2.2.2.2
    (Or.inl rfl)

/-- C9: a due date is parsed only when both the dueDate and the dueTime
keys are present; a record with only one of them parses to null exactly as
if neither were present, and missing sub-components inside a present pair
default to year 1970, month 1, day 1, hour 0, minute 0. -/
theorem claim9_due_requires_both_keys (ga : GoogleAssignment) :
    (ga.dueDate = none → parseDueDate ga = none) ∧
    (ga.dueTime = none → parseDueDate ga = none) ∧
    (∀ dd t, ga.dueDate = some dd → ga.dueTime = some t →
      dd.year = none → dd.month = none → dd.day = none →
      t.hours = none → t.minutes = none →
      parseDueDate ga = some ⟨1970, 1, 1, 0, 0⟩) := by
  refine ⟨?_, ?_, ?_⟩
  · intro h
    unfold parseDueDate
    rw [h]
  · intro h
    unfold parseDueDate
    rw [h]
    cases ga.dueDate <;> rfl
  · intro dd t hdd ht hy hm hd hh hmi
    unfold parseDueDate
    rw [hdd, ht]
    have hv : validDateTime 1970 1 1 0 0 = true := by decide
    simp [hy, hm, hd, hh, hmi, hv]

/-- Witness for C9: a pair of empty dueDate and dueTime objects parses to
1970-01-01 00:00. -/
theorem claim9_witness :
    parseDueDate sampleDefaultDueAssignment = some ⟨1970, 1, 1, 0, 0⟩ :=
  (claim9_due_requires_both_keys sampleDefaultDueAssignment).2.2
    ⟨none, none, none⟩ ⟨none, none⟩ rfl rfl rfl rfl rfl rfl rfl

/-- C10: on the update path of assignment sync, a null parsed due date
leaves the stored due date unchanged (in particular a stored due date is
never cleared back to null), while title and description are refreshed
from the remote record; and the update path rewrites the matched row
in place via the update function. -/
theorem claim10_update_keeps_due_date (ga : GoogleAssignment) (r : AssignmentRow) :
    ((parseDueDate ga = none → (updateAssignmentRow ga r).due_date = r.due_date) ∧
     (updateAssignmentRow ga r).title = ga.title.getD r.title ∧
     (updateAssignmentRow ga r).description = ga.description.getD r.description ∧
     ((updateAssignmentRow ga r).due_date = none → r.due_date = none)) ∧
    (∀ (uid cid : Nat) (oracle : String → DownloadOutcome) (db : ClassDB)
        (d : AssignmentRow),
      db.assignments.find? (assignKey ga.id cid) = some d →
      (syncAssignmentStep uid cid oracle db ga).assignments
        = updateFirst (assignKey ga.id cid) (updateAssignmentRow ga) db.assignments) := by
  constructor
  · refine ⟨?_, rfl, rfl, ?_⟩
    · intro h
      simp [updateAssignmentRow, h]
    · intro h
      cases hp : parseDueDate ga with
      | none => simpa [updateAssignmentRow, hp] using h
      | some d => simp [updateAssignmentRow, hp] at h
  · intro uid cid oracle db d hf
    rw [syncAssignmentStep_assignments, hf]

/-- Witness for C10: a remote record without due components refreshes the
title but keeps the stored due date. -/
theorem claim10_witness :
    (updateAssignmentRow sampleNoDueAssignment sampleAssignmentRow).due_date
        = sampleAssignmentRow.due_date ∧
    (updateAssignmentRow sampleNoDueAssignment sampleAssignmentRow).title = "New title" :=
  ⟨(claim10_update_keeps_due_date sampleNoDueAssignment sampleAssignmentRow).1.1 rfl,
   (claim10_update_keeps_due_date sampleNoDueAssignment sampleAssignmentRow).1.2.1⟩

/-- C7: when the generator fails, the background task rewrites the targeted
draft (found by id) to status "error" with the error text as content; in
particular the draft found afterwards is never still in status
"generating". -/
theorem claim7_generation_failure_sets_error (e : String) (i : Nat)
    (db : List Draft) (d : Draft)
    (hfind : db.find? (fun x => x.id == i) = some d) :
    (generate_draft_content (Except.error e) i db).find? (fun x => x.id == i)
      = some { d with content := "Error generating content: " ++ e, status := "error" } ∧
    ∀ d2, (generate_draft_content (Except.error e) i db).find? (fun x => x.id == i) = some d2 →
      d2.status = "error" ∧ d2.status ≠ "generating"
        ∧ d2.content = "Error generating content: " ++ e := by
  have h1 : (generate_draft_content (Except.error e) i db).find? (fun x => x.id == i)
      = some { d with content := "Error generating content: " ++ e, status := "error" } := by
    unfold generate_draft_content
    exact find?_updateFirst_self (fun x => x.id == i)
      (fun x => { x with content := "Error generating content: " ++ e, status := "error" })
      db (fun x hx => hx) d hfind
  refine ⟨h1, fun d2 h2 => ?_⟩
  rw [h1] at h2
  cases h2
  exact ⟨rfl, by simp, rfl⟩

/-- Witness for C7: a draft stuck in "generating" moves to "error" with the
error text when the generator raises. -/
theorem claim7_witness :
    (generate_draft_content (Except.error "boom") 7 [sampleGeneratingDraft]).find?
        (fun x => x.id == 7)
      = some ⟨7, "Error generating content: " ++ "boom", "error", none⟩ :=
  (claim7_generation_failure_sets_error "boom" 7 [sampleGeneratingDraft]
    sampleGeneratingDraft rfl).1

/-- Helper: every successful download is returned at stream position 0. -/
theorem download_file_pos_zero (env : DriveEnv) (s : ByteStream)
    (h : download_file env = some s) : s.pos = 0 := by
  unfold download_file at h
  repeat' split at h
  all_goals first
    | (cases h; rfl)
    | exact absurd h (by simp)

/-- C8: the Drive fetch exports a native document type as text/plain and a
native spreadsheet type as text/csv, yields an explicit failure (none) for
any other native google-apps type and for missing metadata, downloads any
non-native type raw, maps every transport error to none, and positions
every successfully returned stream at the start. -/
theorem claim8_download_file_contract (env : DriveEnv) :
    (∀ err, env.metaResult = .error err → download_file env = none) ∧
    (∀ meta, env.metaResult = .ok meta → meta.mimeType = none →
      download_file env = none) ∧
    (∀ meta bs, env.metaResult = .ok meta →
      meta.mimeType = some "application/vnd.google-apps.document" →
      env.exportResult "text/plain" = .ok bs → download_file env = some ⟨bs, 0⟩) ∧
    (∀ meta err, env.metaResult = .ok meta →
      meta.mimeType = some "application/vnd.google-apps.document" →
      env.exportResult "text/plain" = .error err → download_file env = none) ∧
    (∀ meta bs, env.metaResult = .ok meta →
      meta.mimeType = some "application/vnd.google-apps.spreadsheet" →
      env.exportResult "text/csv" = .ok bs → download_file env = some ⟨bs, 0⟩) ∧
    (∀ meta err, env.metaResult = .ok meta →
      meta.mimeType = some "application/vnd.google-apps.spreadsheet" →
      env.exportResult "text/csv" = .error err → download_file env = none) ∧
    (∀ meta, env.metaResult = .ok meta →
      meta.mimeType = some "application/vnd.google-apps.presentation" →
      download_file env = none) ∧
    (∀ meta bs, env.metaResult = .ok meta → meta.mimeType = some "application/pdf" →
      env.mediaResult = .ok bs → download_file env = some ⟨bs, 0⟩) ∧
    (∀ meta err, env.metaResult = .ok meta → meta.mimeType = some "application/pdf" →
      env.mediaResult = .error err → download_file env = none) ∧
    (∀ s, download_file env = some s → s.pos = 0) := by
  have hd1 : strContains "application/vnd.google-apps.document" "google-apps" = true := by
    decide
  have hd2 : strContains "application/vnd.google-apps.document" "document" = true := by
    decide
  have hs1 : strContains "application/vnd.google-apps.spreadsheet" "google-apps" = true := by
    decide
  have hs2 : strContains "application/vnd.google-apps.spreadsheet" "document" = false := by
    decide
  have hs3 : strContains "application/vnd.google-apps.spreadsheet" "spreadsheet" = true := by
    decide
  have hp1 : strContains "application/vnd.google-apps.presentation" "google-apps" = true := by
    decide
  have hp2 : strContains "application/vnd.google-apps.presentation" "document" = false := by
    decide
  have hp3 : strContains "application/vnd.google-apps.presentation" "spreadsheet" = false := by
    decide
  have hq1 : strContains "application/pdf" "google-apps" = false := by decide
  refine ⟨?_, ?_, ?_, ?_, ?_, ?_, ?_, ?_, ?_, download_file_pos_zero env⟩
  · intro err h1
    simp [download_file, h1]
  · intro meta h1 h2
    simp [download_file, h1, h2]
  · intro meta bs h1 h2 h3
    simp [download_file, h1, h2, h3, hd1, hd2]
  · intro meta err h1 h2 h3
    simp [download_file, h1, h2, h3, hd1, hd2]
  · intro meta bs h1 h2 h3
    simp [download_file, h1, h2, h3, hs1, hs2, hs3]
  · intro meta err h1 h2 h3
    simp [download_file, h1, h2, h3, hs1, hs2, hs3]
  · intro meta h1 h2
    simp [download_file, h1, h2, hp1, hp2, hp3]
  · intro meta bs h1 h2 h3
    simp [download_file, h1, h2, h3, hq1]
  · intro meta err h1 h2 h3
    simp [download_file, h1, h2, h3, hq1]

/-- Witness for C8: a native document is exported as text/plain and the
returned stream starts at position 0. -/
theorem claim8_witness :
    download_file sampleDriveEnvDoc = some ⟨[104, 105], 0⟩ :=
  (claim8_download_file_contract sampleDriveEnvDoc).2.2.1
    ⟨some "application/vnd.google-apps.document", some "Doc"⟩ [104, 105] rfl rfl rfl

/-- Helper: the submit flow either leaves the draft untouched or marks it
submitted with the submission stamp, and the latter happens exactly on the
success outcome. -/
theorem submit_cases (draft : Draft) (ar cr token : Option String)
    (env : SubmitEnv) (disk : List String) :
    (submit_draft_to_classroom draft ar cr token env disk).draft = draft ∨
    (∃ s f, (submit_draft_to_classroom draft ar cr token env disk).outcome
        = .success s f ∧
      (submit_draft_to_classroom draft ar cr token env disk).draft
        = { draft with status := "submitted", submission_date := some env.now }) := by
  unfold submit_draft_to_classroom create_submission
  repeat' split
  all_goals first
    | exact Or.inl rfl
    | exact Or.inr ⟨_, _, rfl, rfl⟩

/-- Helper: once the render step has produced a path, every continuation of
the submit flow ends with that path removed from disk. -/
theorem submit_disk_after_render (draft : Draft) (a c : String)
    (token : Option String) (env : SubmitEnv) (disk : List String) (path : String)
    (hstatus : (draft.status == "submitted") = false)
    (htok : optTruthy token = true)
    (hrender : env.renderResult = .ok path) :
    (submit_draft_to_classroom draft (some a) (some c) token env disk).disk
      = removeFile path (path :: disk) := by
  unfold submit_draft_to_classroom create_submission
  rw [hstatus, htok, hrender]
  simp only [Bool.not_true, Bool.false_eq_true, if_false]
  repeat' split
  all_goals rfl

theorem not_mem_removeFile (path : String) (l : List String) :
    path ∉ removeFile path l := by
  simp [removeFile, List.mem_filter]

/-- C1: past the precondition checks, the submit flow (a) on success of
every step ends with outcome success, draft status "submitted" and the
submission stamp set; (b) on any non-success outcome leaves the draft
record exactly as before; (c) whenever a PDF was rendered, that file is
absent from disk afterwards; and (d) when the render itself failed, the
disk is unchanged (no temporary file was created). -/
theorem claim1_submit_transitions (draft : Draft) (a c tok : String)
    (env : SubmitEnv) (disk : List String)
    (hstatus : draft.status ≠ "submitted") (htok : tok ≠ "") :
    (∀ path fid sub0 fin subId,
      env.renderResult = .ok path →
      env.uploadResult = some ⟨some fid⟩ →
      env.classroom.createResult = .ok sub0 →
      env.classroom.modifyResult = .ok () →
      env.classroom.turnInResult = .ok fin →
      fin.idField = some subId →
      (submit_draft_to_classroom draft (some a) (some c) (some tok) env disk).outcome
          = .success subId fid ∧
      (submit_draft_to_classroom draft (some a) (some c) (some tok) env disk).draft.status
          = "submitted" ∧
      (submit_draft_to_classroom draft (some a) (some c) (some tok) env disk).draft.submission_date
          = some env.now) ∧
    ((∀ s f, (submit_draft_to_classroom draft (some a) (some c) (some tok) env disk).outcome
        ≠ .success s f) →
      (submit_draft_to_classroom draft (some a) (some c) (some tok) env disk).draft = draft) ∧
    (∀ path, env.renderResult = .ok path →
      path ∉ (submit_draft_to_classroom draft (some a) (some c) (some tok) env disk).disk) ∧
    (∀ e, env.renderResult = .error e →
      (submit_draft_to_classroom draft (some a) (some c) (some tok) env disk).disk = disk) := by
  have hs : (draft.status == "submitted") = false := beq_eq_false_iff_ne.mpr hstatus
  have ht : optTruthy (some tok) = true := by simp [optTruthy, htok]
  refine ⟨?_, ?_, ?_, ?_⟩
  · intro path fid sub0 fin subId h1 h2 h3 h4 h5 h6
    simp [submit_draft_to_classroom, create_submission, hs, ht, h1, h2, h3, h4, h5, h6]
  · intro hne
    rcases submit_cases draft (some a) (some c) (some tok) env disk with h | ⟨s, f, ho, _⟩
    · exact h
    · exact absurd ho (hne s f)
  · intro path h1
    rw [submit_disk_after_render draft a c (some tok) env disk path hs ht h1]
    exact not_mem_removeFile path (path :: disk)
  · intro e h1
    simp [submit_draft_to_classroom, hs, ht, h1]

/-- Witness for C1: with every step succeeding, the concrete draft ends
submitted, stamped, and the temporary PDF is gone from disk. -/
theorem claim1_witness :
    (submit_draft_to_classroom sampleDraft (some "GA1") (some "GC1") (some "tok")
        successSubmitEnv ["other.txt"]).outcome = .success "S9" "F7" ∧
    (submit_draft_to_classroom sampleDraft (some "GA1") (some "GC1") (some "tok")
        successSubmitEnv ["other.txt"]).draft.status = "submitted" ∧
    (submit_draft_to_classroom sampleDraft (some "GA1") (some "GC1") (some "tok")
        successSubmitEnv ["other.txt"]).draft.submission_date = some 99 ∧
    "tmp_submission.pdf" ∉ (submit_draft_to_classroom sampleDraft (some "GA1")
        (some "GC1") (some "tok") successSubmitEnv ["other.txt"]).disk := by
  have h := claim1_submit_transitions sampleDraft "GA1" "GC1" "tok" successSubmitEnv
    ["other.txt"] (by decide) (by decide)
  have h1 := h.1 "tmp_submission.pdf" "F7" ⟨some "S0"⟩ ⟨some "S9"⟩ "S9" rfl rfl rfl rfl rfl rfl
  exact ⟨h1.1, h1.2.1, h1.2.2, h.2.2.1 "tmp_submission.pdf" rfl⟩

/-- C2: past the precondition checks, if the upload step fails or returns a
descriptor without an id, the submit flow ends with the upload failure
outcome, the draft record unchanged, and the performed remote calls are
exactly the folder lookup and the upload — none of the three submission
calls (create, attach, turn in) is made. -/
theorem claim2_upload_failure_aborts (draft : Draft) (a c tok : String)
    (env : SubmitEnv) (disk : List String) (path : String)
    (hstatus : draft.status ≠ "submitted") (htok : tok ≠ "")
    (hrender : env.renderResult = .ok path)
    (hup : env.uploadResult = none
        ∨ ∃ uf, env.uploadResult = some uf ∧ uf.idField = none) :
    (submit_draft_to_classroom draft (some a) (some c) (some tok) env disk).outcome
        = .uploadFailed ∧
    (submit_draft_to_classroom draft (some a) (some c) (some tok) env disk).draft = draft ∧
    (submit_draft_to_classroom draft (some a) (some c) (some tok) env disk).calls
        = [.findFolder, .upload] ∧
    RemoteCall.createSub ∉
      (submit_draft_to_classroom draft (some a) (some c) (some tok) env disk).calls ∧
    RemoteCall.modifyAttach ∉
      (submit_draft_to_classroom draft (some a) (some c) (some tok) env disk).calls ∧
    RemoteCall.turnIn ∉
      (submit_draft_to_classroom draft (some a) (some c) (some tok) env disk).calls := by
  have hs : (draft.status == "submitted") = false := beq_eq_false_iff_ne.mpr hstatus
  have ht : optTruthy (some tok) = true := by simp [optTruthy, htok]
  have hcalls : (submit_draft_to_classroom draft (some a) (some c) (some tok) env disk).calls
      = [.findFolder, .upload] ∧
      (submit_draft_to_classroom draft (some a) (some c) (some tok) env disk).outcome
        = .uploadFailed ∧
      (submit_draft_to_classroom draft (some a) (some c) (some tok) env disk).draft = draft := by
    rcases hup with h | ⟨uf, h, hid⟩
    · simp [submit_draft_to_classroom, hs, ht, hrender, h]
    · simp [submit_draft_to_classroom, hs, ht, hrender, h, hid]
  refine ⟨hcalls.2.1, hcalls.2.2, hcalls.1, ?_, ?_, ?_⟩ <;>
    rw [hcalls.1] <;> simp

/-- Witness for C2: a failed upload yields outcome uploadFailed with the
draft unchanged and only the folder and upload calls performed. -/
theorem claim2_witness :
    (submit_draft_to_classroom sampleDraft (some "GA1") (some "GC1") (some "tok")
        uploadFailSubmitEnv []).outcome = .uploadFailed ∧
    (submit_draft_to_classroom sampleDraft (some "GA1") (some "GC1") (some "tok")
        uploadFailSubmitEnv []).draft = sampleDraft ∧
    (submit_draft_to_classroom sampleDraft (some "GA1") (some "GC1") (some "tok")
        uploadFailSubmitEnv []).calls = [.findFolder, .upload] := by
  have h := claim2_upload_failure_aborts sampleDraft "GA1" "GC1" "tok" uploadFailSubmitEnv
    [] "tmp_submission.pdf" (by decide) (by decide) rfl (Or.inl rfl)
  exact ⟨h.1, h.2.1, h.2.2.1⟩

end MyAgent
